import Mathlib

/-!
Verification of the gplus-auth repository (Go): a thin OAuth flow adapter
wiring goth-style providers to an HTTP router and an scs session store,
plus a static email → access-level policy.

The development shallowly embeds the two source files:
  * `login.go` (package `auth`, a port of goth/gothic): `beginAuthHandler`,
    `setState`, `getState`, `getAuthURL`, `completeUserAuth`,
    `validateState`, `logout`, `getProviderName`, the session helpers
    `storeInSession` / `getFromSession` and the gzip byte layer
    `getSessionValue` / `updateSessionValue`;
  * the `auth` package shown in the README: `Provider`, `AccessType`,
    `GetRouter` route closures, `GetAccess`, `getAccessByEmail`,
    `CheckAccess`, `gateway`.

External collaborators are modelled as parameters:
  * goth providers become a `GothProvider` record of response functions;
  * the scs session for one request becomes an association list threaded
    through each handler; its possible write failures are the fixed
    `removeError` / `putError` fields of `Env`;
  * the `compress/gzip` stdlib pair becomes a `GzipCodec` carrying its
    documented decode-after-encode contract;
  * the process-wide random nonce source becomes the `nonce` byte list of
    `Env`.
Go strings are byte sequences; session payload bytes are `List Nat`.
-/

namespace GplusAuth

/-! ### Query-string parsing (models net/url: `url.Parse`, `URL.Query`, `Values.Get`) -/

/-- Hex digit value, as in Go `unhex`. -/
def hexVal (c : Char) : Option Nat :=
  if '0' ≤ c ∧ c ≤ '9' then some (c.toNat - '0'.toNat)
  else if 'a' ≤ c ∧ c ≤ 'f' then some (c.toNat - 'a'.toNat + 10)
  else if 'A' ≤ c ∧ c ≤ 'F' then some (c.toNat - 'A'.toNat + 10)
  else none

/-- Go `url.QueryUnescape` on a character list: `+` becomes a space, `%XX`
decodes a byte, a malformed escape is an error (`none`). -/
def queryUnescapeList : List Char → Option (List Char)
  | [] => some []
  | '%' :: a :: b :: rest =>
    match hexVal a, hexVal b, queryUnescapeList rest with
    | some hi, some lo, some r => some (Char.ofNat (16 * hi + lo) :: r)
    | _, _, _ => none
  | '%' :: _ => none
  | '+' :: rest => (queryUnescapeList rest).map (fun r => ' ' :: r)
  | c :: rest => (queryUnescapeList rest).map (fun r => c :: r)

/-- Go `strings.Cut` on a character list: split at the first occurrence of
`sep`; when `sep` is absent the whole input is the first component. -/
def cutList (sep : Char) : List Char → List Char × List Char
  | [] => ([], [])
  | c :: rest =>
    if c = sep then ([], rest)
    else
      let r := cutList sep rest
      (c :: r.1, r.2)

/-- Split a character list at every occurrence of `sep` (the segments Go's
repeated `strings.Cut` on `&` walks through). -/
def splitOnChar (sep : Char) : List Char → List (List Char)
  | [] => [[]]
  | c :: rest =>
    match splitOnChar sep rest with
    | [] => [[]]
    | h :: t => if c = sep then [] :: h :: t else (c :: h) :: t

/-- Go `url.ParseQuery` (as called by `URL.Query`, which ignores the error
and keeps the pairs that parsed): split on `&`, skip a segment holding `;`
or empty, split each segment at the first `=`, unescape key and value,
skip the pair when either fails. -/
def parseQuery (s : String) : List (String × String) :=
  (splitOnChar '&' s.toList).foldr
    (fun seg acc =>
      if seg.contains ';' then acc
      else if seg.isEmpty then acc
      else
        let kv := cutList '=' seg
        match queryUnescapeList kv.1, queryUnescapeList kv.2 with
        | some k, some v => (String.mk k, String.mk v) :: acc
        | _, _ => acc)
    []

/-- Go `url.Values.Get`: first value stored under the key, `""` when absent. -/
def queryGet (q : List (String × String)) (key : String) : String :=
  match q.find? (fun p => p.1 == key) with
  | some p => p.2
  | none => ""

/-- Fragment removal: Go `url.Parse` cuts everything from the first `#`. -/
def stripFragment (s : String) : String :=
  String.mk (cutList '#' s.toList).1

/-- The raw query of a URL string: what follows the first `?` once the
fragment is cut (empty when there is no `?`). -/
def rawQueryOf (s : String) : String :=
  String.mk (cutList '?' (stripFragment s).toList).2

/-- Go `url.Parse`, reduced to what `validateState` consumes: it rejects a
URL holding an ASCII control character and otherwise yields the raw query. -/
def urlParse (s : String) : Except String String :=
  if s.toList.any (fun c => c.toNat < 32 ∨ c.toNat = 127) then
    Except.error "net/url: invalid control character in URL"
  else Except.ok (rawQueryOf s)

/-! ### base64 URL encoding (models `base64.URLEncoding.EncodeToString`) -/

/-- Character of the base64 URL alphabet. -/
def b64Char (n : Nat) : Char :=
  if n < 26 then Char.ofNat ('A'.toNat + n)
  else if n < 52 then Char.ofNat ('a'.toNat + (n - 26))
  else if n < 62 then Char.ofNat ('0'.toNat + (n - 52))
  else if n = 62 then '-'
  else '_'

/-- base64 URL encoding with padding, three input bytes per four output
characters. -/
def base64URLEncode : List Nat → List Char
  | [] => []
  | [a] => [b64Char (a / 4), b64Char (a % 4 * 16), '=', '=']
  | [a, b] => [b64Char (a / 4), b64Char (a % 4 * 16 + b / 16), b64Char (b % 16 * 4), '=']
  | a :: b :: c :: rest =>
    b64Char (a / 4) :: b64Char (a % 4 * 16 + b / 16) ::
      b64Char (b % 16 * 4 + c / 64) :: b64Char (c % 64) :: base64URLEncode rest

/-! ### Data model -/

/-- One inbound HTTP request, reduced to what the code reads: the chi URL
parameter `provider` (`""` when absent) and the parsed query values. -/
structure Request where
  providerParam : String
  query : List (String × String)
  deriving Repr, DecidableEq

/-- goth.User, reduced to the one field the handlers read. -/
structure User where
  email : String
  deriving Repr, DecidableEq

instance exceptDecEq {α β : Type} [DecidableEq α] [DecidableEq β] : DecidableEq (Except α β) :=
  fun x y =>
    match x, y with
    | Except.error a, Except.error b =>
      if h : a = b then isTrue (by rw [h]) else isFalse (by intro hc; cases hc; exact h rfl)
    | Except.error _, Except.ok _ => isFalse (by intro hc; cases hc)
    | Except.ok _, Except.error _ => isFalse (by intro hc; cases hc)
    | Except.ok a, Except.ok b =>
      if h : a = b then isTrue (by rw [h]) else isFalse (by intro hc; cases hc; exact h rfl)

/-- goth.Session as observed by this code: `GetAuthURL` and `Marshal`. -/
structure GothSession where
  authURLResult : Except String String
  marshaled : String
  deriving Repr, DecidableEq

/-- goth.Provider as observed by this code. `authorize` models
`Session.Authorize`, which mutates the session in place on success: here it
returns the refreshed session. -/
structure GothProvider where
  name : String
  beginAuth : String → Except String GothSession
  unmarshalSession : String → Except String GothSession
  fetchUser : GothSession → Except String User
  authorize : GothSession → List (String × String) → Except String GothSession

/-- Fixed per-request environment: the goth provider registry, the 64
random nonce bytes the process-wide generator would produce, and the scs
write-failure modes (`none` = the store write succeeds). -/
structure Env where
  providers : List GothProvider
  nonce : List Nat
  removeError : Option String
  putError : Option String

/-- The scs session of one request, at the decompressed-value level: the
gzip byte layer wrapped around it by `updateSessionValue` /
`getSessionValue` is modelled separately below and shown lossless there. -/
abbrev Store := List (String × String)

/-- Session read: first entry under the key. -/
def storeLookup (st : Store) (k : String) : Option String :=
  match st.find? (fun p => p.1 == k) with
  | some p => some p.2
  | none => none

/-- Session write: replace any entry under the key. -/
def storeSet (st : Store) (k v : String) : Store :=
  (k, v) :: st.filter (fun p => !(p.1 == k))

/-- Session delete: drop every entry under the key. -/
def storeErase (st : Store) (k : String) : Store :=
  st.filter (fun p => !(p.1 == k))

/-! ### login.go: session helpers and name resolution -/

/-- getFromSession: a missing entry is reported as the code's wrapped
error (the inner store/gzip error is logged and replaced). -/
def getFromSession (st : Store) (key : String) : Except String String :=
  match storeLookup st key with
  | some value => Except.ok value
  | none => Except.error "could not find a matching session for this request"

/-- storeInSession: `session.PutBytes` of the (conceptually compressed)
value; an scs write failure surfaces as the error. -/
def storeInSession (env : Env) (st : Store) (key value : String) : Except String Store :=
  match env.putError with
  | some e => Except.error e
  | none => Except.ok (storeSet st key value)

/-- getProviderName: the chi `provider` URL parameter, a hard error when
it is absent. -/
def getProviderName (req : Request) : Except String String :=
  if req.providerParam ≠ "" then Except.ok req.providerParam
  else Except.error "you must select a provider"

/-- goth.GetProvider: registry lookup by name. -/
def getGothProvider (providers : List GothProvider) (name : String) : Except String GothProvider :=
  match providers.find? (fun p => p.name == name) with
  | some p => Except.ok p
  | none => Except.error ("no provider for " ++ name ++ " exists")

/-! ### login.go: state token -/

/-- setState: the caller-supplied `state` query parameter when non-empty,
otherwise the base64 URL encoding of the 64 generated nonce bytes. -/
def setState (req : Request) (nonce : List Nat) : String :=
  let state := queryGet req.query "state"
  if state.length > 0 then state
  else String.mk (base64URLEncode nonce)

/-- getState: the `state` parameter of the callback query. -/
def getState (req : Request) : String :=
  queryGet req.query "state"

/-- validateState: the `state` embedded in the originally stored
authorization URL must match the one in the current request's query,
unless the embedded one is empty. -/
def validateState (req : Request) (sess : GothSession) : Except String Unit :=
  match sess.authURLResult with
  | Except.error e => Except.error e
  | Except.ok rawAuthURL =>
    match urlParse rawAuthURL with
    | Except.error e => Except.error e
    | Except.ok rq =>
      let originalState := queryGet (parseQuery rq) "state"
      if originalState ≠ "" ∧ originalState ≠ queryGet req.query "state" then
        Except.error "state token mismatch"
      else Except.ok ()

/-! ### login.go: the OAuth flow orchestration

Each flow function threads the request's session `Store` and also returns
the ordered list of session/provider events it performed, used to settle
the ordering and retry-count claims. -/

/-- Observable events of one flow run: session blob read, profile fetch,
token exchange, session re-persist, session removal. -/
inductive Ev where
  | load (found : Bool)
  | fetch (ok : Bool)
  | authorizeEv (ok : Bool)
  | put (ok : Bool)
  | removeEv (ok : Bool)
  deriving Repr, DecidableEq

/-- logout: resolve the provider name, then `session.Remove` the blob
stored under it (a removal is attempted exactly when the name resolves).
The source's error texts carry an apostrophe-free paraphrase here. -/
def logout (env : Env) (st : Store) (req : Request) :
    Except String Unit × Store × List Ev :=
  match getProviderName req with
  | Except.error _ => (Except.error "cannot detect provider", st, [])
  | Except.ok name =>
    match env.removeError with
    | some _ => (Except.error "could not delete user session", st, [Ev.removeEv false])
    | none => (Except.ok (), storeErase st name, [Ev.removeEv true])

/-- Body of completeUserAuth, in source order: resolve the provider name,
look the provider up, load the stored blob, unmarshal it, validate the
state token, fetch the user; when that first fetch fails, perform one
`Authorize` token exchange with the callback query, re-persist the
refreshed session and fetch once more. The deferred logout is applied by
`completeUserAuth` below. -/
def completeUserAuthBody (env : Env) (st : Store) (req : Request) :
    Except String User × Store × List Ev :=
  match getProviderName req with
  | Except.error e => (Except.error e, st, [])
  | Except.ok providerName =>
    match getGothProvider env.providers providerName with
    | Except.error e => (Except.error e, st, [])
    | Except.ok provider =>
      match getFromSession st providerName with
      | Except.error e => (Except.error e, st, [Ev.load false])
      | Except.ok value =>
        match provider.unmarshalSession value with
        | Except.error e => (Except.error e, st, [Ev.load true])
        | Except.ok sess =>
          match validateState req sess with
          | Except.error e => (Except.error e, st, [Ev.load true])
          | Except.ok _ =>
            match provider.fetchUser sess with
            | Except.ok user => (Except.ok user, st, [Ev.load true, Ev.fetch true])
            | Except.error _ =>
              match provider.authorize sess req.query with
              | Except.error e =>
                (Except.error e, st, [Ev.load true, Ev.fetch false, Ev.authorizeEv false])
              | Except.ok sess2 =>
                match storeInSession env st providerName sess2.marshaled with
                | Except.error e =>
                  (Except.error e, st,
                    [Ev.load true, Ev.fetch false, Ev.authorizeEv true, Ev.put false])
                | Except.ok st2 =>
                  match provider.fetchUser sess2 with
                  | Except.ok gu =>
                    (Except.ok gu, st2,
                      [Ev.load true, Ev.fetch false, Ev.authorizeEv true, Ev.put true,
                        Ev.fetch true])
                  | Except.error e =>
                    (Except.error e, st2,
                      [Ev.load true, Ev.fetch false, Ev.authorizeEv true, Ev.put true,
                        Ev.fetch false])

/-- completeUserAuth: the body above with `defer logout(res, req)` — the
logout runs at exit on every path, its result discarded, its store
mutation kept. -/
def completeUserAuth (env : Env) (st : Store) (req : Request) :
    Except String User × Store × List Ev :=
  let r := completeUserAuthBody env st req
  let l := logout env r.2.1 req
  (r.1, l.2.1, r.2.2 ++ l.2.2)

/-- getAuthURL: resolve name and provider, `BeginAuth` with the state from
`setState`, read the authorization URL, persist the marshaled session. -/
def getAuthURL (env : Env) (st : Store) (req : Request) :
    Except String String × Store :=
  match getProviderName req with
  | Except.error e => (Except.error e, st)
  | Except.ok providerName =>
    match getGothProvider env.providers providerName with
    | Except.error e => (Except.error e, st)
    | Except.ok provider =>
      match provider.beginAuth (setState req env.nonce) with
      | Except.error e => (Except.error e, st)
      | Except.ok sess =>
        match sess.authURLResult with
        | Except.error e => (Except.error e, st)
        | Except.ok url =>
          match storeInSession env st providerName sess.marshaled with
          | Except.error e => (Except.error e, st)
          | Except.ok st2 => (Except.ok url, st2)

/-! ### HTTP responses and route handlers -/

/-- One response: `Location` header (`""` if unset), written status code
(`0` if none was written), and body text. -/
structure Response where
  location : String
  status : Nat
  body : String
  deriving Repr, DecidableEq

/-- The redirect helper: `Location` plus HTTP 307, no body. -/
def redirect (url : String) : Response :=
  { location := url, status := 307, body := "" }

/-- beginAuthHandler: on a getAuthURL error it writes HTTP 400 and prints
the error into the response body (`fmt.Fprintln` appends a newline); on
success it redirects to the authorization URL (`http.Redirect`; the
optional HTML hyperlink body it adds for GET requests is not modelled). -/
def beginAuthHandler (env : Env) (st : Store) (req : Request) :
    Response × Store :=
  match getAuthURL env st req with
  | (Except.error e, st2) => ({ location := "", status := 400, body := e ++ "\n" }, st2)
  | (Except.ok url, st2) => (redirect url, st2)

/-! ### README `auth` package: access policy and router -/

/-- AccessType enumeration. -/
inductive AccessType where
  | NoneAccess
  | AdminAccess
  deriving Repr, DecidableEq

/-- UserInfo: one configured `{email, access}` entry. -/
structure UserInfo where
  email : String
  access : AccessType
  deriving Repr, DecidableEq

/-- The auth Provider host: pages, default provider name and the static
user list (its scs manager is the threaded `Store`). -/
structure Provider where
  deniedPage : String
  successPage : String
  defaultProvider : String
  userList : List UserInfo
  deriving Repr, DecidableEq

/-- getAccessByEmail: linear scan of the user list, first exact email
match wins, no match yields NoneAccess. -/
def Provider.getAccessByEmail (t : Provider) (email : String) : AccessType :=
  match t.userList.find? (fun el => el.email == email) with
  | some el => el.access
  | none => AccessType.NoneAccess

/-- GetAccess: the session's `email` string (a missing key reads as `""`);
a read failure or empty email is NoneAccess, otherwise the list lookup. -/
def Provider.GetAccess (t : Provider) (st : Store) : AccessType :=
  let email := (storeLookup st "email").getD ""
  if email = "" then AccessType.NoneAccess
  else t.getAccessByEmail email

/-- CheckAccess: true iff the resolved access level equals one of the
given levels. -/
def Provider.CheckAccess (t : Provider) (st : Store) (types : List AccessType) : Bool :=
  let access := t.GetAccess st
  types.any (fun el => el == access)

/-- Result of one route handler: the response, the session store after the
handler, and the log lines it emitted. -/
structure RouteResult where
  response : Response
  store : Store
  logLines : List String
  deriving Repr, DecidableEq

/-- gateway: map the email to an access level; NoneAccess redirects to the
denied page, otherwise persist the email under the session key `email`
(a write failure is logged and redirects to the denied page) and redirect
to the success page. -/
def Provider.gateway (t : Provider) (env : Env) (st : Store) (email : String) : RouteResult :=
  let access := t.getAccessByEmail email
  if access = AccessType.NoneAccess then ⟨redirect t.deniedPage, st, []⟩
  else
    match env.putError with
    | some _ => ⟨redirect t.deniedPage, st, ["cannot save auth info into session"]⟩
    | none => ⟨redirect t.successPage, storeSet st "email" email, []⟩

/-- The `{provider}/callback` route: completeUserAuth; on error log and
return with nothing written; on success hand the email to the gateway.
The log text paraphrases the source's printf message without its
apostrophes. -/
def Provider.callbackRoute (t : Provider) (env : Env) (st : Store) (req : Request) : RouteResult :=
  match completeUserAuth env st req with
  | (Except.error e, st2, _) =>
    ⟨{ location := "", status := 0, body := "" }, st2,
      ["cannot complete user authentication, " ++ e]⟩
  | (Except.ok user, st2, _) => t.gateway env st2 user.email

/-- The `{provider}/login` route: try completeUserAuth silently; on
success go through the gateway, otherwise start a fresh auth flow. -/
def Provider.loginRoute (t : Provider) (env : Env) (st : Store) (req : Request) : RouteResult :=
  match completeUserAuth env st req with
  | (Except.ok user, st2, _) => t.gateway env st2 user.email
  | (Except.error _, st2, _) =>
    let r := beginAuthHandler env st2 req
    ⟨r.1, r.2, []⟩

/-- The `{provider}/logout` route: run logout, discard its result, and
redirect to the configured success page. -/
def Provider.logoutRoute (t : Provider) (env : Env) (st : Store) (req : Request) : RouteResult :=
  let l := logout env st req
  ⟨redirect t.successPage, l.2.1, []⟩

/-! ### login.go: the gzip byte layer of the session adapter -/

/-- Session bytes as stored by scs `PutBytes` / read by `GetBytes`. -/
abbrev ByteStore := List (String × List Nat)

/-- Byte-level session read. -/
def byteLookup (sess : ByteStore) (k : String) : Option (List Nat) :=
  match sess.find? (fun p => p.1 == k) with
  | some p => some p.2
  | none => none

/-- Byte-level session write. -/
def byteSet (sess : ByteStore) (k : String) (v : List Nat) : ByteStore :=
  (k, v) :: sess.filter (fun p => !(p.1 == k))

/-- The `compress/gzip` stdlib pair as this code uses it (writer over a
`bytes.Buffer`, so compression itself cannot fail; the reader can), with
the library's documented contract that decoding an encoded stream gives
the original bytes back. -/
structure GzipCodec where
  compress : List Nat → List Nat
  decompress : List Nat → Except String (List Nat)
  roundtrip : ∀ b, decompress (compress b) = Except.ok b

/-- updateSessionValue: gzip-compress the value bytes (`Write`, `Flush`,
`Close` into a buffer) and `PutBytes` the result under the key;
`putError` is the scs write-failure mode. -/
def updateSessionValue (g : GzipCodec) (putError : Option String) (sess : ByteStore)
    (key : String) (value : List Nat) : Except String ByteStore :=
  match putError with
  | some e => Except.error e
  | none => Except.ok (byteSet sess key (g.compress value))

/-- getSessionValue: `GetBytes` under the key (a missing entry is the
"no matching session" error) and gunzip the stored bytes. -/
def getSessionValue (g : GzipCodec) (sess : ByteStore) (key : String) :
    Except String (List Nat) :=
  match byteLookup sess key with
  | none => Except.error "could not find a matching session for this request"
  | some bytes => g.decompress bytes

/-! ### Helper lemmas on the association-list session -/

theorem find?_filter_not_key (l : List (String × String)) (k : String) :
    (l.filter (fun p => !(p.1 == k))).find? (fun p => p.1 == k) = none := by
  induction l with
  | nil => rfl
  | cons a t ih =>
    cases h : (a.1 == k) with
    | true => simp [List.filter_cons, h, ih]
    | false => simp [List.filter_cons, List.find?_cons, h, ih]

theorem storeLookup_storeErase_self (st : Store) (k : String) :
    storeLookup (storeErase st k) k = none := by
  unfold storeLookup storeErase
  rw [find?_filter_not_key]

theorem storeLookup_storeSet_self (st : Store) (k v : String) :
    storeLookup (storeSet st k v) k = some v := by
  unfold storeLookup storeSet
  rw [List.find?_cons_of_pos _ (by simp)]

theorem byteLookup_byteSet_self (sess : ByteStore) (k : String) (v : List Nat) :
    byteLookup (byteSet sess k v) k = some v := by
  unfold byteLookup byteSet
  rw [List.find?_cons_of_pos _ (by simp)]

/-! ### Claim C4 -/

/-- C4: for every byte sequence, compressing it with `updateSessionValue`
and then decompressing it with `getSessionValue` under the same
provider-name key returns the original bytes unchanged (the gzip
store/load round trip is lossless), provided the session write itself
succeeded. -/
theorem c4_gzip_roundtrip (g : GzipCodec) (sess sess2 : ByteStore) (key : String)
    (value : List Nat)
    (h : updateSessionValue g none sess key value = Except.ok sess2) :
    getSessionValue g sess2 key = Except.ok value := by
  unfold updateSessionValue at h
  have h2 : byteSet sess key (g.compress value) = sess2 := by
    simpa using h
  subst h2
  unfold getSessionValue
  rw [byteLookup_byteSet_self]
  exact g.roundtrip value

/-- Identity codec: a concrete inhabitant of the gzip contract. -/
def idCodec : GzipCodec :=
  { compress := fun b => b
    decompress := fun b => Except.ok b
    roundtrip := fun _ => rfl }

/-- Witness for C4 at a concrete store, key and payload. -/
theorem c4_gzip_roundtrip_witness :
    updateSessionValue idCodec none [] "gplus" [103, 122, 0, 255] =
      Except.ok (byteSet [] "gplus" (idCodec.compress [103, 122, 0, 255])) ∧
    getSessionValue idCodec (byteSet [] "gplus" (idCodec.compress [103, 122, 0, 255])) "gplus" =
      Except.ok [103, 122, 0, 255] :=
  ⟨rfl, c4_gzip_roundtrip idCodec [] _ "gplus" [103, 122, 0, 255] rfl⟩

/-! ### Claims C5, C6, C7 (access policy) -/

theorem getAccessByEmail_not_found (t : Provider) (e : String)
    (h : ∀ u ∈ t.userList, u.email ≠ e) :
    t.getAccessByEmail e = AccessType.NoneAccess := by
  unfold Provider.getAccessByEmail
  have hn : t.userList.find? (fun el => el.email == e) = none :=
    List.find?_eq_none.mpr (fun u hu => by simpa using h u hu)
  rw [hn]

/-- C5: an email matching no configured entry yields NoneAccess, and an
empty (or unreadable) session email yields NoneAccess before the list is
even consulted. -/
theorem c5_unknown_email_none (t : Provider) (st : Store) :
    ((storeLookup st "email").getD "" = "" → t.GetAccess st = AccessType.NoneAccess) ∧
    (∀ e, storeLookup st "email" = some e → (∀ u ∈ t.userList, u.email ≠ e) →
      t.GetAccess st = AccessType.NoneAccess) ∧
    (∀ e, (∀ u ∈ t.userList, u.email ≠ e) →
      t.getAccessByEmail e = AccessType.NoneAccess) := by
  refine ⟨?_, ?_, fun e h => getAccessByEmail_not_found t e h⟩
  · intro h
    unfold Provider.GetAccess
    simp [h]
  · intro e he h
    unfold Provider.GetAccess
    rw [he]
    by_cases h0 : e = ""
    · simp [h0]
    · simpa [h0] using getAccessByEmail_not_found t e h

/-- Witness for C5: an unlisted email and a missing session email. -/
theorem c5_unknown_email_none_witness :
    ({ deniedPage := "/auth-denied", successPage := "/", defaultProvider := "gplus",
       userList := [⟨"admin@example.com", AccessType.AdminAccess⟩] } :
        Provider).GetAccess [("email", "stranger@example.com")] = AccessType.NoneAccess ∧
    ({ deniedPage := "/auth-denied", successPage := "/", defaultProvider := "gplus",
       userList := [⟨"admin@example.com", AccessType.AdminAccess⟩] } :
        Provider).GetAccess [] = AccessType.NoneAccess :=
  ⟨(c5_unknown_email_none _ _).2.1 "stranger@example.com" rfl (by decide),
   (c5_unknown_email_none _ _).1 rfl⟩

theorem find?_append_first_match (pre post : List UserInfo) (u : UserInfo)
    (hpre : ∀ v ∈ pre, v.email ≠ u.email) :
    (pre ++ u :: post).find? (fun el => el.email == u.email) = some u := by
  induction pre with
  | nil =>
    rw [List.nil_append, List.find?_cons_of_pos _ (by simp)]
  | cons a t ih =>
    have ha : ¬((fun el => el.email == u.email) a = true) := by
      intro hc
      exact hpre a (List.mem_cons_self a t) (by simpa using hc)
    rw [List.cons_append,
      @List.find?_cons_of_neg _ (fun el => el.email == u.email) a (t ++ u :: post) ha]
    exact ih (fun v hv => hpre v (List.mem_cons_of_mem a hv))

/-- C6: looking up the email of a configured entry returns the access
level of the first entry carrying that exact email — first match wins
when duplicates exist. -/
theorem c6_first_match_wins (t : Provider) (pre post : List UserInfo) (u : UserInfo)
    (hlist : t.userList = pre ++ u :: post)
    (hpre : ∀ v ∈ pre, v.email ≠ u.email) :
    t.getAccessByEmail u.email = u.access := by
  unfold Provider.getAccessByEmail
  rw [hlist, find?_append_first_match pre post u hpre]

/-- Witness for C6: a duplicated email where the first entry's level wins. -/
theorem c6_first_match_wins_witness :
    ({ deniedPage := "/auth-denied", successPage := "/", defaultProvider := "gplus",
       userList := [⟨"admin@example.com", AccessType.AdminAccess⟩,
                    ⟨"admin@example.com", AccessType.NoneAccess⟩] } :
        Provider).getAccessByEmail "admin@example.com" = AccessType.AdminAccess :=
  c6_first_match_wins _ [] [⟨"admin@example.com", AccessType.NoneAccess⟩]
    ⟨"admin@example.com", AccessType.AdminAccess⟩ rfl (by simp)

/-- C7: CheckAccess is true iff the caller's resolved access level is
exactly one of the allowed levels; the levels form no hierarchy, so Admin
does not satisfy a check for NoneAccess nor the other way round. -/
theorem c7_check_access_membership (t : Provider) (st : Store) (types : List AccessType) :
    (t.CheckAccess st types = true ↔ t.GetAccess st ∈ types) ∧
    (t.GetAccess st = AccessType.AdminAccess →
      t.CheckAccess st [AccessType.NoneAccess] = false) ∧
    (t.GetAccess st = AccessType.NoneAccess →
      t.CheckAccess st [AccessType.AdminAccess] = false) := by
  refine ⟨?_, ?_, ?_⟩
  · unfold Provider.CheckAccess
    simp [List.any_eq_true]
  · intro h
    unfold Provider.CheckAccess
    simp [h]
  · intro h
    unfold Provider.CheckAccess
    simp [h]

/-- Witness for C7: one admin session and one anonymous session, checked
against the opposite level. -/
theorem c7_check_access_membership_witness :
    ({ deniedPage := "/auth-denied", successPage := "/", defaultProvider := "gplus",
       userList := [⟨"admin@example.com", AccessType.AdminAccess⟩] } :
        Provider).CheckAccess [("email", "admin@example.com")] [AccessType.NoneAccess] = false ∧
    ({ deniedPage := "/auth-denied", successPage := "/", defaultProvider := "gplus",
       userList := [⟨"admin@example.com", AccessType.AdminAccess⟩] } :
        Provider).CheckAccess [] [AccessType.AdminAccess] = false :=
  ⟨(c7_check_access_membership _ _ [AccessType.NoneAccess]).2.1 rfl,
   (c7_check_access_membership _ _ [AccessType.AdminAccess]).2.2 rfl⟩

/-! ### Claim C8 -/

/-- C8: the logout route always answers with a temporary redirect to the
configured success page — also when the underlying session removal
reports an error (`removeError` set). -/
theorem c8_logout_always_redirects (t : Provider) (env : Env) (st : Store) (req : Request)
    (e : String) :
    (t.logoutRoute env st req).response = redirect t.successPage ∧
    (t.logoutRoute { env with removeError := some e } st req).response =
      redirect t.successPage :=
  ⟨rfl, rfl⟩

/-! ### Trace lemmas for completeUserAuth -/

theorem completeUserAuthBody_no_remove (env : Env) (st : Store) (req : Request) (c : Bool) :
    Ev.removeEv c ∉ (completeUserAuthBody env st req).2.2 := by
  unfold completeUserAuthBody
  repeat' split
  all_goals simp

/-! ### Claim C3 -/

/-- C3: after every return of completeUserAuth — also a successful one —
the session entry stored under the resolved provider name is gone,
because the logout call is deferred and runs on every exit path (shown
here for an environment in which the removal itself succeeds). -/
theorem c3_session_removed_on_return (env : Env) (st : Store) (req : Request) (name : String)
    (h : getProviderName req = Except.ok name) (hrm : env.removeError = none) :
    storeLookup (completeUserAuth env st req).2.1 name = none := by
  unfold completeUserAuth
  simp only [logout, h, hrm]
  exact storeLookup_storeErase_self _ _

/-! ### Concrete worlds used by witnesses and counterexamples -/

/-- A stored goth session whose authorization URL embeds the state `abc`. -/
def sess0 : GothSession :=
  { authURLResult := Except.ok "https://accounts.example.com/o/oauth2/auth?state=abc"
    marshaled := "blob0" }

/-- A cooperative provider: unmarshals `blob0` back to `sess0`, finds the
user with the existing session data, never needs a refresh. -/
def gp0 : GothProvider :=
  { name := "gplus"
    beginAuth := fun s =>
      Except.ok
        { authURLResult := Except.ok ("https://accounts.example.com/o/oauth2/auth?state=" ++ s)
          marshaled := "blob0" }
    unmarshalSession := fun v =>
      if v = "blob0" then Except.ok sess0 else Except.error "unmarshal failed"
    fetchUser := fun s =>
      if s.marshaled = "blob0" then Except.ok { email := "admin@example.com" }
      else Except.error "no user"
    authorize := fun _ _ => Except.error "no token" }

/-- Environment: the `gp0` registry, a fixed nonce, a healthy store. -/
def env0 : Env :=
  { providers := [gp0], nonce := List.replicate 64 7, removeError := none, putError := none }

/-- A store already holding the in-flight session blob for `gplus`. -/
def st0 : Store := [("gplus", "blob0")]

/-- The matching callback request: provider `gplus`, state `abc`. -/
def req0 : Request := { providerParam := "gplus", query := [("state", "abc")] }

/-- Witness for C3: the concrete successful callback leaves no `gplus`
entry behind. -/
theorem c3_session_removed_on_return_witness :
    getProviderName req0 = Except.ok "gplus" ∧
    storeLookup (completeUserAuth env0 st0 req0).2.1 "gplus" = none :=
  ⟨rfl, c3_session_removed_on_return env0 st0 req0 "gplus" rfl rfl⟩

/-! ### Claim C1 -/

def isRemoveEvB : Ev → Bool
  | Ev.removeEv _ => true
  | _ => false

def isLoadEvB : Ev → Bool
  | Ev.load _ => true
  | _ => false

/-- The ordering C1 asserts of one run: a session removal occurs strictly
before the session-blob load. -/
def clearsBeforeLoad (t : List Ev) : Bool :=
  match t.findIdx? isRemoveEvB, t.findIdx? isLoadEvB with
  | some i, some j => decide (i < j)
  | _, _ => false

/-- C1 counterexample: on a concrete callback whose run both loads the
blob and removes the session, the removal does not precede the load — it
could not, since the load still finds the blob and the whole flow
succeeds; the clearing claimed to happen first actually happens last. -/
theorem c1_counterexample :
    (completeUserAuth env0 st0 req0).1 = Except.ok { email := "admin@example.com" } ∧
    (completeUserAuth env0 st0 req0).2.2.any isLoadEvB = true ∧
    (completeUserAuth env0 st0 req0).2.2.any isRemoveEvB = true ∧
    clearsBeforeLoad (completeUserAuth env0 st0 req0).2.2 = false :=
  ⟨rfl, rfl, rfl, rfl⟩

/-- C1 as amended: completeUserAuth does not clear the session first; the
logout is deferred, so on every call whose provider name resolves the
session removal is attempted exactly once, as the very last step of the
run — after the provider resolution, the session load, the unmarshal and
the state validation. -/
theorem c1_deferred_clear_runs_last (env : Env) (st : Store) (req : Request) (name : String)
    (h : getProviderName req = Except.ok name) :
    ∃ tr b, (completeUserAuth env st req).2.2 = tr ++ [Ev.removeEv b] ∧
      ∀ c, Ev.removeEv c ∉ tr := by
  unfold completeUserAuth
  cases hrm : env.removeError with
  | some e =>
    refine ⟨(completeUserAuthBody env st req).2.2, false, ?_, ?_⟩
    · simp [logout, h, hrm]
    · exact fun c => completeUserAuthBody_no_remove env st req c
  | none =>
    refine ⟨(completeUserAuthBody env st req).2.2, true, ?_, ?_⟩
    · simp [logout, h, hrm]
    · exact fun c => completeUserAuthBody_no_remove env st req c

/-- Witness for the amended C1 at the concrete callback. -/
theorem c1_deferred_clear_runs_last_witness :
    getProviderName req0 = Except.ok "gplus" ∧
    (∃ tr b, (completeUserAuth env0 st0 req0).2.2 = tr ++ [Ev.removeEv b] ∧
      ∀ c, Ev.removeEv c ∉ tr) :=
  ⟨rfl, c1_deferred_clear_runs_last env0 st0 req0 "gplus" rfl⟩

/-! ### Claim C2 -/

/-- C2: when the stored session's authorization URL embeds a non-empty
state parameter, a callback whose `state` query parameter equals it passes
the state check, and a callback carrying any different state value makes
validateState — and, through it, completeUserAuth — fail with the
state-mismatch error. -/
theorem c2_state_token_roundtrip (env : Env) (st : Store) (req : Request)
    (providerName value raw rq s : String) (provider : GothProvider) (sess : GothSession)
    (h1 : sess.authURLResult = Except.ok raw)
    (h2 : urlParse raw = Except.ok rq)
    (h3 : queryGet (parseQuery rq) "state" = s)
    (hs : s ≠ "")
    (h4 : getProviderName req = Except.ok providerName)
    (h5 : getGothProvider env.providers providerName = Except.ok provider)
    (h6 : getFromSession st providerName = Except.ok value)
    (h7 : provider.unmarshalSession value = Except.ok sess) :
    (queryGet req.query "state" = s → validateState req sess = Except.ok ()) ∧
    (queryGet req.query "state" ≠ s →
      validateState req sess = Except.error "state token mismatch" ∧
      (completeUserAuth env st req).1 = Except.error "state token mismatch") := by
  constructor
  · intro hq
    unfold validateState
    simp only [h1, h2, h3, hq]
    simp
  · intro hq
    have hv : validateState req sess = Except.error "state token mismatch" := by
      unfold validateState
      simp only [h1, h2, h3]
      rw [if_pos ⟨hs, fun hc => hq hc.symm⟩]
    refine ⟨hv, ?_⟩
    unfold completeUserAuth completeUserAuthBody
    simp only [h4, h5, h6, h7, hv]

/-- A callback request carrying a tampered state value. -/
def reqBad : Request := { providerParam := "gplus", query := [("state", "evil")] }

/-- Witness for C2: the untampered state `abc` passes, the tampered state
`evil` fails validateState and completeUserAuth with the mismatch error. -/
theorem c2_state_token_roundtrip_witness :
    validateState req0 sess0 = Except.ok () ∧
    validateState reqBad sess0 = Except.error "state token mismatch" ∧
    (completeUserAuth env0 st0 reqBad).1 = Except.error "state token mismatch" := by
  have hok := (c2_state_token_roundtrip env0 st0 req0 "gplus" "blob0"
    "https://accounts.example.com/o/oauth2/auth?state=abc" "state=abc" "abc" gp0 sess0
    rfl rfl rfl (by decide) rfl rfl rfl rfl).1 rfl
  have hbad := (c2_state_token_roundtrip env0 st0 reqBad "gplus" "blob0"
    "https://accounts.example.com/o/oauth2/auth?state=abc" "state=abc" "abc" gp0 sess0
    rfl rfl rfl (by decide) rfl rfl rfl rfl).2 (by decide)
  exact ⟨hok, hbad.1, hbad.2⟩

/-! ### Claim C9 -/

/-- A request on which provider resolution fails (no `provider` URL
parameter). -/
def reqNoProvider : Request := { providerParam := "", query := [] }

/-- C9 counterexample: a provider-resolution flow error through
beginAuthHandler does not terminate the handler silently — it writes HTTP
400 and prints the error text into the response body, so the claim that
every flow error leaves no response body is false. -/
theorem c9_counterexample :
    (beginAuthHandler env0 [] reqNoProvider).1.status = 400 ∧
    (beginAuthHandler env0 [] reqNoProvider).1.body = "you must select a provider\n" ∧
    (beginAuthHandler env0 [] reqNoProvider).1.body ≠ "" :=
  ⟨rfl, rfl, by decide⟩

/-- C9 as amended: a flow error on the callback-completion path is logged
and terminates the handler with nothing written (no status, no body),
while a begin-auth/provider-resolution error in beginAuthHandler
terminates the handler with HTTP 400 and the error text (plus newline) as
the response body. -/
theorem c9_flow_error_handling (t : Provider) (env : Env) (st : Store) (req : Request) :
    (∀ e st2 tr, completeUserAuth env st req = (Except.error e, st2, tr) →
      (t.callbackRoute env st req).response.body = "" ∧
      (t.callbackRoute env st req).response.status = 0 ∧
      (t.callbackRoute env st req).logLines ≠ []) ∧
    (∀ e st2, getAuthURL env st req = (Except.error e, st2) →
      (beginAuthHandler env st req).1.status = 400 ∧
      (beginAuthHandler env st req).1.body = e ++ "\n") := by
  constructor
  · intro e st2 tr hca
    unfold Provider.callbackRoute
    simp [hca]
  · intro e st2 hga
    unfold beginAuthHandler
    simp [hga]

/-- Witness for the amended C9: the concrete request without a provider
parameter, on the callback handler and on beginAuthHandler. -/
theorem c9_flow_error_handling_witness :
    (({ deniedPage := "/auth-denied", successPage := "/", defaultProvider := "gplus",
        userList := [] } : Provider).callbackRoute env0 [] reqNoProvider).response.body = "" ∧
    (({ deniedPage := "/auth-denied", successPage := "/", defaultProvider := "gplus",
        userList := [] } : Provider).callbackRoute env0 [] reqNoProvider).logLines ≠ [] ∧
    (beginAuthHandler env0 [] reqNoProvider).1.status = 400 ∧
    (beginAuthHandler env0 [] reqNoProvider).1.body = "you must select a provider" ++ "\n" := by
  have H := c9_flow_error_handling
    { deniedPage := "/auth-denied", successPage := "/", defaultProvider := "gplus",
      userList := [] } env0 [] reqNoProvider
  have H1 := H.1 "you must select a provider" [] [] rfl
  have H2 := H.2 "you must select a provider" [] rfl
  exact ⟨H1.1, H1.2.2, H2.1, H2.2⟩

/-! ### Claim C10 -/

def isFetchEvB : Ev → Bool
  | Ev.fetch _ => true
  | _ => false

def isAuthorizeEvB : Ev → Bool
  | Ev.authorizeEv _ => true
  | _ => false

/-- C10: when the first profile fetch fails, completeUserAuth performs
exactly one token exchange with the callback's query parameters; when
that exchange and the re-persist succeed, the refreshed session is stored
under the provider name and the profile fetch is retried exactly once,
whose outcome is final; a failure of the exchange or of the re-persist is
terminal with no retry (never more than two fetches, never a second
exchange). -/
theorem c10_single_refresh_retry (env : Env) (st : Store) (req : Request)
    (providerName value e1 : String) (provider : GothProvider) (sess : GothSession)
    (h1 : getProviderName req = Except.ok providerName)
    (h2 : getGothProvider env.providers providerName = Except.ok provider)
    (h3 : getFromSession st providerName = Except.ok value)
    (h4 : provider.unmarshalSession value = Except.ok sess)
    (h5 : validateState req sess = Except.ok ())
    (h6 : provider.fetchUser sess = Except.error e1) :
    (completeUserAuth env st req).2.2.countP isAuthorizeEvB = 1 ∧
    (completeUserAuth env st req).2.2.countP isFetchEvB ≤ 2 ∧
    ((completeUserAuth env st req).1 =
      match provider.authorize sess req.query with
      | Except.error e2 => Except.error e2
      | Except.ok sess2 =>
        match env.putError with
        | some pe => Except.error pe
        | none => provider.fetchUser sess2) ∧
    (∀ e2, provider.authorize sess req.query = Except.error e2 →
      (completeUserAuth env st req).2.2.countP isFetchEvB = 1) ∧
    (∀ sess2 pe, provider.authorize sess req.query = Except.ok sess2 →
      env.putError = some pe →
      (completeUserAuth env st req).2.2.countP isFetchEvB = 1) ∧
    (∀ sess2, provider.authorize sess req.query = Except.ok sess2 → env.putError = none →
      (completeUserAuth env st req).2.2.countP isFetchEvB = 2 ∧
      storeLookup (completeUserAuthBody env st req).2.1 providerName =
        some sess2.marshaled) := by
  unfold completeUserAuth completeUserAuthBody logout storeInSession
  simp only [h1, h2, h3, h4, h5, h6]
  cases ha : provider.authorize sess req.query with
  | error e2 =>
    cases hrm : env.removeError with
    | none =>
      simp [ha, hrm, List.countP_append, List.countP_cons, isAuthorizeEvB, isFetchEvB]
    | some er =>
      simp [ha, hrm, List.countP_append, List.countP_cons, isAuthorizeEvB, isFetchEvB]
  | ok sess2 =>
    cases hp : env.putError with
    | some pe =>
      cases hrm : env.removeError with
      | none =>
        simp [ha, hp, hrm, List.countP_append, List.countP_cons, isAuthorizeEvB, isFetchEvB]
      | some er =>
        simp [ha, hp, hrm, List.countP_append, List.countP_cons, isAuthorizeEvB, isFetchEvB]
    | none =>
      cases hf : provider.fetchUser sess2 with
      | ok gu =>
        cases hrm : env.removeError with
        | none =>
          simp [ha, hp, hrm, hf, List.countP_append, List.countP_cons, isAuthorizeEvB,
            isFetchEvB, storeLookup_storeSet_self]
        | some er =>
          simp [ha, hp, hrm, hf, List.countP_append, List.countP_cons, isAuthorizeEvB,
            isFetchEvB, storeLookup_storeSet_self]
      | error e3 =>
        cases hrm : env.removeError with
        | none =>
          simp [ha, hp, hrm, hf, List.countP_append, List.countP_cons, isAuthorizeEvB,
            isFetchEvB, storeLookup_storeSet_self]
        | some er =>
          simp [ha, hp, hrm, hf, List.countP_append, List.countP_cons, isAuthorizeEvB,
            isFetchEvB, storeLookup_storeSet_self]

/-- A stored session whose token has expired. -/
def sessR : GothSession :=
  { authURLResult := Except.ok "https://accounts.example.com/o/oauth2/auth?state=abc"
    marshaled := "blob0" }

/-- The session after the token exchange. -/
def sessR2 : GothSession :=
  { authURLResult := Except.ok "https://accounts.example.com/o/oauth2/auth?state=abc"
    marshaled := "blob1" }

/-- A provider whose first fetch fails on the stale session and succeeds
after the one token exchange. -/
def gpR : GothProvider :=
  { name := "gplus"
    beginAuth := fun _ => Except.error "begin auth unused"
    unmarshalSession := fun v =>
      if v = "blob0" then Except.ok sessR else Except.error "unmarshal failed"
    fetchUser := fun s =>
      if s.marshaled = "blob1" then Except.ok { email := "admin@example.com" }
      else Except.error "token expired"
    authorize := fun _ _ => Except.ok sessR2 }

/-- Environment and store for the refresh-retry run. -/
def envR : Env :=
  { providers := [gpR], nonce := List.replicate 64 7, removeError := none, putError := none }

/-- Store holding the stale blob for `gplus`. -/
def stR : Store := [("gplus", "blob0")]

/-- Witness for C10: on the concrete expired-token callback the flow does
exactly one exchange, exactly two fetches, and succeeds with the
refreshed session. -/
theorem c10_single_refresh_retry_witness :
    (completeUserAuth envR stR req0).2.2.countP isAuthorizeEvB = 1 ∧
    (completeUserAuth envR stR req0).2.2.countP isFetchEvB = 2 ∧
    storeLookup (completeUserAuthBody envR stR req0).2.1 "gplus" = some "blob1" ∧
    (completeUserAuth envR stR req0).1 = Except.ok { email := "admin@example.com" } := by
  have H := c10_single_refresh_retry envR stR req0 "gplus" "blob0" "token expired" gpR sessR
    rfl rfl rfl rfl rfl rfl
  have H6 := H.2.2.2.2.2 sessR2 rfl rfl
  exact ⟨H.1, H6.1, H6.2, rfl⟩
